import Mathlib

/-!
Verification of the localhost gateway plugin
(`src/plugins/localhost/src/lib.rs`): a shallow embedding of the request
handler (`handle_request_handler`), the route decision it induces, the asset
response assembler, the dev-proxy bridge and the WebSocket tunnel relays,
together with theorems settling the specified properties.
-/

namespace Localhost

/-- Header map as used by the Rust code: a `HashMap<String, String>` for the
in-progress `LocalResponse` headers, and the outbound header list. We model it
as an association list; `hmInsert` models `HashMap::insert` (last write wins,
at most one entry per key). -/
abbrev Headers := List (String × String)

/-- `HashMap::insert`: replaces any existing entry with the same key. -/
def hmInsert (k v : String) (m : Headers) : Headers :=
  m.filter (fun p => p.1 ≠ k) ++ [(k, v)]

/-- `HashMap::get`: the value stored under `k`, if any. -/
def hmGet (k : String) (m : Headers) : Option String :=
  (m.find? (fun p => p.1 = k)).map (fun p => p.2)

/-- A token character, as accepted by the external `http` crate when parsing a
`HeaderName` (`name.parse::<HeaderName>()`, lib.rs line 150): ASCII letters,
digits, and the RFC 7230 token specials. -/
def isTokenChar (c : Char) : Bool :=
  let n := c.toNat
  (48 ≤ n && n ≤ 57) || (65 ≤ n && n ≤ 90) || (97 ≤ n && n ≤ 122) ||
  n == 33 || n == 35 || n == 36 || n == 37 || n == 38 || n == 39 ||
  n == 42 || n == 43 || n == 45 || n == 46 || n == 94 || n == 95 ||
  n == 96 || n == 124 || n == 126

/-- Wire-format validity of a header name: nonempty, all token characters.
Models `str::parse::<HeaderName>` succeeding (lib.rs line 150). -/
def isValidHeaderName (s : String) : Bool :=
  !s.isEmpty && s.data.all isTokenChar

/-- Wire-format validity of one header-value character, as accepted by the
external `http` crate (`value.parse::<HeaderValue>()`, lib.rs line 151):
horizontal tab, or any character other than the C0 controls and DEL. -/
def isValidHeaderValueChar (c : Char) : Bool :=
  c.toNat == 9 || (32 ≤ c.toNat && c.toNat ≠ 127)

/-- Wire-format validity of a header value. Models
`str::parse::<HeaderValue>` succeeding (lib.rs line 151). -/
def isValidHeaderValue (s : String) : Bool :=
  s.data.all isValidHeaderValueChar

/-- The defensive parse of lib.rs lines 149-155: every header whose name or
value fails wire-format validation is silently dropped; the rest are put on
the outgoing response. -/
def wireFilter (m : Headers) : Headers :=
  m.filter (fun p => isValidHeaderName p.1 && isValidHeaderValue p.2)

/-- An asset returned by the resolver (`AssetResolver::get`): bytes, a MIME
type, and an optional content-security-policy header value. -/
structure Asset where
  bytes : List Nat
  mime_type : String
  csp_header : Option String
deriving DecidableEq, Repr

/-- An inbound HTTP request as seen by `handle_request_handler`: method,
URI path (`req.uri().path()`), header list, and the upgrade classification.
`is_upgrade` models `hyper_tungstenite::is_upgrade_request(&req)` (line 94);
`upgrade_ok` models `hyper_tungstenite::upgrade(req, None)` succeeding
(line 96). -/
structure InboundRequest where
  method : String
  path : String
  headers : Headers
  is_upgrade : Bool
  upgrade_ok : Bool
deriving DecidableEq, Repr

/-- An outbound HTTP response: status, headers, body bytes. -/
structure Resp where
  status : Nat
  headers : Headers
  body : List Nat
deriving DecidableEq, Repr

/-- The outgoing client request built by the dev-proxy branch
(lib.rs lines 164-169): same method as the inbound request, the joined
target URL, and all inbound headers copied over. -/
structure ProxyRequest where
  method : String
  url : String
  headers : Headers
deriving DecidableEq, Repr

/-- The upstream dev-server response as observed through `reqwest`:
status, headers, and the result of `proxy_res.bytes()` — `none` models a
body-read failure, which line 181 (`unwrap_or_default`) turns into an empty
body. -/
structure UpstreamResp where
  status : Nat
  headers : Headers
  body : Option (List Nat)
deriving DecidableEq, Repr

/-- The environment of external collaborators the handler closes over:
the asset resolver, the dev-mode flag (`tauri::is_dev()`), the optional
dev-server base URL, the URL-join operation of the external `url` crate
(`Url::join`, `none` = join error), and the upstream HTTP exchange
(`reqwest` send, `Except.error` = connect/timeout/transport failure). -/
structure Env where
  resolver : String → Option Asset
  is_dev : Bool
  dev_url : Option String
  joinUrl : String → String → Option String
  upstream : ProxyRequest → Except Unit UpstreamResp

/-- Outcome of one handler invocation. `err` models an error propagated by
`?` (turned into a connection error by hyper); `panic` models a Rust panic
(an `unwrap` on a failed operation) aborting the handler task. -/
inductive HandlerOutcome where
  | ok (r : Resp)
  | err
  | panic
deriving DecidableEq, Repr

/-- The response produced by `hyper_tungstenite::upgrade` (lib.rs line 96):
101 Switching Protocols with the upgrade headers. Modelled from the external
crate's fixed behavior. -/
def upgradeResponse : Resp :=
  { status := 101
    headers := [("Connection", "Upgrade"), ("Upgrade", "websocket")]
    body := [] }

/-- The default headers the asset branch sets on the in-progress
`LocalResponse` (lib.rs lines 139-146): `Content-Type` from the asset's MIME
type, then `Content-Security-Policy` only when the asset supplies one. -/
def defaultAssetHeaders (asset : Asset) : Headers :=
  let m := hmInsert "Content-Type" asset.mime_type []
  match asset.csp_header with
  | some csp => hmInsert "Content-Security-Policy" csp m
  | none => m

/-- The served-asset response (lib.rs lines 138-157): status 200 (the
`Response::builder()` default), the default headers after the defensive
wire-format filter, and the asset's bytes as body. -/
def assetResponse (asset : Asset) : Resp :=
  { status := 200
    headers := wireFilter (defaultAssetHeaders asset)
    body := asset.bytes }

/-- The not-found response (lib.rs lines 189-195): status 404,
`Content-Type: text/html`, `Content-Security-Policy: default-src 'none'`,
empty body. -/
def notFoundResponse : Resp :=
  { status := 404
    headers := [("Content-Type", "text/html"),
                ("Content-Security-Policy", "default-src \x27none\x27")]
    body := [] }

/-- The 502 response sent when the upstream exchange fails
(lib.rs lines 185-188): status BAD_GATEWAY, no headers, empty body. -/
def badGatewayResponse : Resp :=
  { status := 502, headers := [], body := [] }

/-- The outgoing proxy request (lib.rs lines 164-169). -/
def mkProxyRequest (req : InboundRequest) (url : String) : ProxyRequest :=
  { method := req.method, url := url, headers := req.headers }

/-- The response mirroring a successful upstream exchange
(lib.rs lines 172-183): upstream status, upstream headers copied verbatim,
upstream bytes as body (empty if the body read failed,
`unwrap_or_default`). -/
def proxyResponse (u : UpstreamResp) : Resp :=
  { status := u.status, headers := u.headers, body := u.body.getD [] }

/-- The request handler `handle_request_handler` (lib.rs lines 89-197).
Upgrade requests are answered with the upgrade response at once (the tunnel
task is spawned detached and does not influence the returned response);
otherwise the resolver is queried; a hit serves the asset; a miss with
dev-mode on and a dev URL configured proxies to the dev server — where a
failed `Url::join` hits `.unwrap()` (line 162) and panics — and otherwise
the fixed 404 response is returned. -/
def handle_request_handler (env : Env) (req : InboundRequest) : HandlerOutcome :=
  if req.is_upgrade then
    if req.upgrade_ok then .ok upgradeResponse else .err
  else
    match env.resolver req.path with
    | some asset => .ok (assetResponse asset)
    | none =>
      if env.is_dev && env.dev_url.isSome then
        match env.dev_url with
        | none => .panic
        | some base =>
          match env.joinUrl base req.path with
          | none => .panic
          | some url =>
            match env.upstream (mkProxyRequest req url) with
            | .ok u => .ok (proxyResponse u)
            | .error _ => .ok badGatewayResponse
      else .ok notFoundResponse

/-- The proxy target URL computed inside the detached WebSocket tunnel task
(lib.rs lines 101-103): `dev_url.clone().unwrap()`, `dev_url.join(&path)
.unwrap()`, `proxy_url.set_scheme("ws").unwrap()`. Each `none` result of a
step makes the corresponding `unwrap` panic the detached task, which the
overall `none` models. -/
def tunnelProxyUrl (joinUrl : String → String → Option String)
    (setSchemeWs : String → Option String)
    (dev_url : Option String) (path : String) : Option String :=
  match dev_url with
  | none => none
  | some base =>
    match joinUrl base path with
    | none => none
    | some u => setSchemeWs u

/-- The route decision taken by the handler: the four handling paths of
lib.rs lines 94 (upgrade), 138 (asset hit), 158 (dev proxy) and 189
(not found). The WebSocket proxy is the upgrade path's detached tunnel. -/
inductive RouteDecision where
  | upgradeToWebSocket (path : String)
  | serveAsset (asset : Asset)
  | proxyHttp (base : String) (path : String)
  | notFound
deriving DecidableEq, Repr

/-- The router: the branch structure of `handle_request_handler`
(lib.rs lines 94, 138, 158, 189) as a function into `RouteDecision`. -/
def route (env : Env) (req : InboundRequest) : RouteDecision :=
  if req.is_upgrade then .upgradeToWebSocket req.path
  else
    match env.resolver req.path with
    | some asset => .serveAsset asset
    | none =>
      if env.is_dev && env.dev_url.isSome then
        .proxyHttp (env.dev_url.getD "") req.path
      else .notFound

/-- A WebSocket frame as relayed by the tunnel (`tungstenite` `Message`). -/
inductive Message where
  | text (s : String)
  | binary (b : List Nat)
  | ping (b : List Nat)
  | pong (b : List Nat)
  | close
deriving DecidableEq, Repr

/-- One relay direction of the tunnel (lib.rs lines 112-120 and 121-125):
`while let Some(Ok(message)) = read.next().await { write.send(message) }` —
forwards each successfully read frame unchanged, and stops at the first
read error or end of stream (send errors are logged and do not stop the
loop). -/
def relayLoop : List (Except Unit Message) → List Message
  | [] => []
  | .ok m :: rest => m :: relayLoop rest
  | .error _ :: _ => []

/-- The tunnel (lib.rs lines 104-127): two independent relays, dev-server
reads forwarded to the inbound client and inbound-client reads forwarded to
the dev server. -/
def tunnelRelay (fromDevServer fromClient : List (Except Unit Message)) :
    List Message × List Message :=
  (relayLoop fromDevServer, relayLoop fromClient)

/-- A response-mutation hook: a pure update of the in-progress header set,
given a read-only view of the inbound request. -/
abbrev Hook := InboundRequest → Headers → Headers

/-- Modelled from the spec: the optional response-mutation hook of the
gateway configuration (the repository's blocking implementation's
`on_request` callback, which is not under `src/`; only the `LocalResponse`
header container it mutates is, lib.rs lines 46-54). Per the spec it is
invoked once per served asset, with a read-only view of the request and the
in-progress header set, after the default `Content-Type` and
`Content-Security-Policy` headers are set and before the wire-format
filter/transmission. -/
def assembleAssetWithHook (hook : Option Hook) (req : InboundRequest)
    (asset : Asset) : Resp :=
  let defaults := defaultAssetHeaders asset
  let hdrs :=
    match hook with
    | some h => h req defaults
    | none => defaults
  { status := 200, headers := wireFilter hdrs, body := asset.bytes }

/-- Modelled from the spec: the handler extended with the optional
response-mutation hook. Identical to `handle_request_handler` except that
the served-asset branch assembles through the hook; in particular the
not-found, proxy and upgrade branches never consult the hook. -/
def handleWithHook (env : Env) (hook : Option Hook)
    (req : InboundRequest) : HandlerOutcome :=
  if req.is_upgrade then
    if req.upgrade_ok then .ok upgradeResponse else .err
  else
    match env.resolver req.path with
    | some asset => .ok (assembleAssetWithHook hook req asset)
    | none =>
      if env.is_dev && env.dev_url.isSome then
        match env.dev_url with
        | none => .panic
        | some base =>
          match env.joinUrl base req.path with
          | none => .panic
          | some url =>
            match env.upstream (mkProxyRequest req url) with
            | .ok u => .ok (proxyResponse u)
            | .error _ => .ok badGatewayResponse
      else .ok notFoundResponse

/-! ## Sample collaborators used by the witnesses -/

/-- A sample asset with a valid MIME type and a valid CSP value. -/
def sampleAsset : Asset :=
  { bytes := [60, 104, 49, 62, 104, 105, 60, 47, 104, 49, 62]
    mime_type := "text/html"
    csp_header := some "default-src \x27self\x27" }

/-- A sample environment: resolver serving only `/index.html`, dev mode off,
no dev server. -/
def assetEnv : Env :=
  { resolver := fun p => if p = "/index.html" then some sampleAsset else none
    is_dev := false
    dev_url := none
    joinUrl := fun b p => some (b ++ p)
    upstream := fun _ => Except.error () }

/-- A sample GET request for `/index.html`. -/
def getIndexReq : InboundRequest :=
  { method := "GET", path := "/index.html"
    headers := [("Accept", "text/html")]
    is_upgrade := false, upgrade_ok := false }

/-! ## Theorems -/

/-- C3: for every inbound request the router chooses exactly one handling
path — the decision is a total function, and each of the four code paths
(upgrade, serve-asset, dev-proxy, not-found; the WebSocket proxy is the
upgrade path's detached tunnel) is taken exactly under its guard, so the
paths are mutually exclusive. -/
theorem routing_total_and_exclusive (env : Env) (req : InboundRequest) :
    (∀ p, route env req = RouteDecision.upgradeToWebSocket p ↔
      (req.is_upgrade = true ∧ p = req.path)) ∧
    (∀ a, route env req = RouteDecision.serveAsset a ↔
      (req.is_upgrade = false ∧ env.resolver req.path = some a)) ∧
    (∀ b p, route env req = RouteDecision.proxyHttp b p ↔
      (req.is_upgrade = false ∧ env.resolver req.path = none ∧
       env.is_dev = true ∧ env.dev_url = some b ∧ p = req.path)) ∧
    (route env req = RouteDecision.notFound ↔
      (req.is_upgrade = false ∧ env.resolver req.path = none ∧
       (env.is_dev = false ∨ env.dev_url = none))) := by
  cases hu : req.is_upgrade <;>
    rcases hres : env.resolver req.path with _ | a <;>
      cases hdev : env.is_dev <;>
        rcases hurl : env.dev_url with _ | base <;>
          simp [route, hu, hres, hdev, hurl, eq_comm]

/-- Each relay loop forwards an error-free frame stream verbatim. -/
theorem relayLoop_map_ok (l : List Message) :
    relayLoop (l.map Except.ok) = l := by
  induction l with
  | nil => rfl
  | cons m rest ih => simp [relayLoop, ih]

/-- C8: for every established tunnel session, both relay directions
(dev-server-to-client and client-to-dev-server) forward every frame
verbatim and without reinterpretation: a frame stream read without errors
on one side arrives byte-identical at the other peer, in both
directions. -/
theorem tunnel_relays_verbatim (fromDevServer fromClient : List Message) :
    tunnelRelay (fromDevServer.map Except.ok) (fromClient.map Except.ok) =
      (fromDevServer, fromClient) := by
  simp [tunnelRelay, relayLoop_map_ok]

/-- C10: an upgrade request is answered with the protocol-upgrade response
immediately, for every environment — in particular without consulting the
resolver, the dev-mode flag or the dev-server URL (the theorem holds for
every `env`, including `dev_url = none`); the dev-server configuration is
consulted only by the detached tunnel task, whose target computation is the
one that fails (`unwrap` panic) when no dev URL is configured. -/
theorem upgrade_short_circuits (env : Env) (req : InboundRequest)
    (j : String → String → Option String) (s : String → Option String)
    (hu : req.is_upgrade = true) (hok : req.upgrade_ok = true) :
    handle_request_handler env req = HandlerOutcome.ok upgradeResponse ∧
    tunnelProxyUrl j s none req.path = none := by
  constructor
  · simp [handle_request_handler, hu, hok]
  · rfl

/-- A sample upgrade request. -/
def upgradeReq : InboundRequest :=
  { method := "GET", path := "/ws"
    headers := [("Connection", "Upgrade"), ("Upgrade", "websocket")]
    is_upgrade := true, upgrade_ok := true }

/-- Witness for C10, with an environment that has no dev server configured
and a resolver that would resolve the path. -/
theorem upgrade_short_circuits_witness :
    upgradeReq.is_upgrade = true ∧ upgradeReq.upgrade_ok = true ∧
    (handle_request_handler
        { resolver := fun _ => some sampleAsset
          is_dev := false, dev_url := none
          joinUrl := fun b p => some (b ++ p)
          upstream := fun _ => Except.error () } upgradeReq =
      HandlerOutcome.ok upgradeResponse ∧
     tunnelProxyUrl (fun b p => some (b ++ p)) (fun u => some u) none
        upgradeReq.path = none) :=
  ⟨rfl, rfl,
    upgrade_short_circuits _ upgradeReq (fun b p => some (b ++ p))
      (fun u => some u) rfl rfl⟩

/-- C2: a non-upgrade request on an unresolved path, with dev mode off or no
dev URL configured, is answered with exactly status 404,
`Content-Type: text/html`, `Content-Security-Policy: default-src 'none'`
and an empty body; the response is the same for every mutation hook (the
hook never runs on the not-found branch). -/
theorem not_found_exact (env : Env) (hook : Option Hook)
    (req : InboundRequest)
    (hu : req.is_upgrade = false)
    (hres : env.resolver req.path = none)
    (hoff : env.is_dev = false ∨ env.dev_url = none) :
    handle_request_handler env req = HandlerOutcome.ok notFoundResponse ∧
    handleWithHook env hook req = HandlerOutcome.ok notFoundResponse ∧
    notFoundResponse.status = 404 ∧
    hmGet "Content-Type" notFoundResponse.headers = some "text/html" ∧
    hmGet "Content-Security-Policy" notFoundResponse.headers =
      some "default-src \x27none\x27" ∧
    notFoundResponse.body = [] := by
  have hcond : (env.is_dev && env.dev_url.isSome) = false := by
    rcases hoff with h | h <;> simp [h]
  refine ⟨?_, ?_, rfl, rfl, rfl, rfl⟩ <;>
    simp [handle_request_handler, handleWithHook, hu, hres, hcond]

/-- Witness for C2: the sample environment (dev mode off) on a miss. -/
theorem not_found_exact_witness :
    ({ method := "GET", path := "/app.js", headers := [],
       is_upgrade := false, upgrade_ok := false } : InboundRequest).is_upgrade
        = false ∧
    assetEnv.resolver "/app.js" = none ∧
    (assetEnv.is_dev = false ∨ assetEnv.dev_url = none) ∧
    (handle_request_handler assetEnv
        { method := "GET", path := "/app.js", headers := [],
          is_upgrade := false, upgrade_ok := false } =
      HandlerOutcome.ok notFoundResponse ∧
     handleWithHook assetEnv
        (some (fun _ m => hmInsert "X-Test" "1" m))
        { method := "GET", path := "/app.js", headers := [],
          is_upgrade := false, upgrade_ok := false } =
      HandlerOutcome.ok notFoundResponse ∧
     notFoundResponse.status = 404 ∧
     hmGet "Content-Type" notFoundResponse.headers = some "text/html" ∧
     hmGet "Content-Security-Policy" notFoundResponse.headers =
       some "default-src \x27none\x27" ∧
     notFoundResponse.body = []) :=
  ⟨rfl, rfl, Or.inl rfl,
    not_found_exact assetEnv (some (fun _ m => hmInsert "X-Test" "1" m))
      { method := "GET", path := "/app.js", headers := [],
        is_upgrade := false, upgrade_ok := false }
      rfl rfl (Or.inl rfl)⟩

/-- C4: a proxied request carries the inbound method and all inbound
headers, targets the joined dev-server URL, and on upstream success (send
succeeded and the body was read) the produced response copies the upstream
status and headers verbatim and forwards the upstream body
byte-for-byte. -/
theorem proxy_success_forwarding (env : Env) (req : InboundRequest)
    (base url : String) (u : UpstreamResp) (bs : List Nat)
    (hu : req.is_upgrade = false)
    (hres : env.resolver req.path = none)
    (hdev : env.is_dev = true)
    (hurl : env.dev_url = some base)
    (hjoin : env.joinUrl base req.path = some url)
    (hok : env.upstream (mkProxyRequest req url) = Except.ok u)
    (hbody : u.body = some bs) :
    (mkProxyRequest req url).method = req.method ∧
    (mkProxyRequest req url).headers = req.headers ∧
    (mkProxyRequest req url).url = url ∧
    handle_request_handler env req =
      HandlerOutcome.ok { status := u.status, headers := u.headers, body := bs } := by
  refine ⟨rfl, rfl, rfl, ?_⟩
  simp [handle_request_handler, proxyResponse, hu, hres, hdev, hurl, hjoin,
    hok, hbody]

/-- A sample upstream response from the dev server. -/
def sampleUpstream : UpstreamResp :=
  { status := 200
    headers := [("Content-Type", "application/javascript"), ("X-Dev", "1")]
    body := some [99, 111, 100, 101] }

/-- A sample environment with dev mode on, a dev URL, and an upstream that
answers `sampleUpstream` to the expected proxy request and fails
otherwise. -/
def devEnv : Env :=
  { resolver := fun _ => none
    is_dev := true
    dev_url := some "http://localhost:1420"
    joinUrl := fun b p => some (b ++ p)
    upstream := fun pr =>
      if pr = mkProxyRequest
          { method := "GET", path := "/app.js",
            headers := [("Accept", "text/javascript")],
            is_upgrade := false, upgrade_ok := false }
          "http://localhost:1420/app.js"
      then Except.ok sampleUpstream else Except.error () }

/-- Witness for C4: a GET for `/app.js` proxied through `devEnv`. -/
theorem proxy_success_forwarding_witness :
    ({ method := "GET", path := "/app.js",
       headers := [("Accept", "text/javascript")],
       is_upgrade := false, upgrade_ok := false } : InboundRequest).is_upgrade
        = false ∧
    devEnv.resolver "/app.js" = none ∧
    devEnv.is_dev = true ∧
    devEnv.dev_url = some "http://localhost:1420" ∧
    devEnv.joinUrl "http://localhost:1420" "/app.js" =
      some "http://localhost:1420/app.js" ∧
    devEnv.upstream (mkProxyRequest
        { method := "GET", path := "/app.js",
          headers := [("Accept", "text/javascript")],
          is_upgrade := false, upgrade_ok := false }
        "http://localhost:1420/app.js") = Except.ok sampleUpstream ∧
    sampleUpstream.body = some [99, 111, 100, 101] ∧
    handle_request_handler devEnv
        { method := "GET", path := "/app.js",
          headers := [("Accept", "text/javascript")],
          is_upgrade := false, upgrade_ok := false } =
      HandlerOutcome.ok
        { status := sampleUpstream.status, headers := sampleUpstream.headers,
          body := [99, 111, 100, 101] } := by
  refine ⟨rfl, rfl, rfl, rfl, rfl, rfl, rfl, ?_⟩
  exact (proxy_success_forwarding devEnv
      { method := "GET", path := "/app.js",
        headers := [("Accept", "text/javascript")],
        is_upgrade := false, upgrade_ok := false }
      "http://localhost:1420" "http://localhost:1420/app.js"
      sampleUpstream [99, 111, 100, 101]
      rfl rfl rfl rfl rfl rfl rfl).2.2.2

/-- C5: when the upstream exchange fails with a connect, timeout or
transport error, the client receives status 502 with an empty body (and no
headers). -/
theorem proxy_failure_502 (env : Env) (req : InboundRequest)
    (base url : String)
    (hu : req.is_upgrade = false)
    (hres : env.resolver req.path = none)
    (hdev : env.is_dev = true)
    (hurl : env.dev_url = some base)
    (hjoin : env.joinUrl base req.path = some url)
    (hfail : env.upstream (mkProxyRequest req url) = Except.error ()) :
    handle_request_handler env req = HandlerOutcome.ok badGatewayResponse ∧
    badGatewayResponse.status = 502 ∧
    badGatewayResponse.body = [] := by
  refine ⟨?_, rfl, rfl⟩
  simp [handle_request_handler, hu, hres, hdev, hurl, hjoin, hfail]

/-- Witness for C5: a request `devEnv`'s upstream refuses. -/
theorem proxy_failure_502_witness :
    ({ method := "GET", path := "/other.js", headers := [],
       is_upgrade := false, upgrade_ok := false } : InboundRequest).is_upgrade
        = false ∧
    devEnv.resolver "/other.js" = none ∧
    devEnv.is_dev = true ∧
    devEnv.dev_url = some "http://localhost:1420" ∧
    devEnv.joinUrl "http://localhost:1420" "/other.js" =
      some "http://localhost:1420/other.js" ∧
    devEnv.upstream (mkProxyRequest
        { method := "GET", path := "/other.js", headers := [],
          is_upgrade := false, upgrade_ok := false }
        "http://localhost:1420/other.js") = Except.error () ∧
    (handle_request_handler devEnv
        { method := "GET", path := "/other.js", headers := [],
          is_upgrade := false, upgrade_ok := false } =
      HandlerOutcome.ok badGatewayResponse ∧
     badGatewayResponse.status = 502 ∧ badGatewayResponse.body = []) := by
  refine ⟨rfl, rfl, rfl, rfl, rfl, rfl, ?_⟩
  exact proxy_failure_502 devEnv
    { method := "GET", path := "/other.js", headers := [],
      is_upgrade := false, upgrade_ok := false }
    "http://localhost:1420" "http://localhost:1420/other.js"
    rfl rfl rfl rfl rfl rfl

/-- A request target whose path join against an http base URL fails in the
`url` crate (a protocol-relative reference with an out-of-range port). -/
def joinFailPath : String := "//devhost:99999999999999999999"

/-- An environment whose `Url::join` model fails exactly on
`joinFailPath`, with dev mode on and a dev URL configured. -/
def joinFailEnv : Env :=
  { resolver := fun _ => none
    is_dev := true
    dev_url := some "http://localhost:1420"
    joinUrl := fun _ p =>
      if p = joinFailPath then none else some ("http://localhost:1420" ++ p)
    upstream := fun _ => Except.error () }

/-- A non-upgrade request for `joinFailPath`. -/
def joinFailReq : InboundRequest :=
  { method := "GET", path := joinFailPath, headers := []
    is_upgrade := false, upgrade_ok := false }

/-- C6 counterexample: on a request whose path join fails, the handler hits
`dev_url.join(&path).unwrap()` (lib.rs line 162) and panics — it does not
degrade to the 502 response or the not-found response, refuting the claim
that a join failure fails closed without panicking. -/
theorem join_failure_panics_counterexample :
    handle_request_handler joinFailEnv joinFailReq = HandlerOutcome.panic ∧
    HandlerOutcome.panic ≠ HandlerOutcome.ok badGatewayResponse ∧
    HandlerOutcome.panic ≠ HandlerOutcome.ok notFoundResponse :=
  ⟨rfl, by simp, by simp⟩

/-- C6 amended: a join failure does not degrade the request — in the HTTP
proxy path the handler panics on the `unwrap` of the failed join (lib.rs
line 162), and in the WebSocket path the detached tunnel task's target
computation fails the same way (lib.rs line 102, after the upgrade response
has already been sent), so the task panics instead of producing any
fallback. -/
theorem join_failure_panics (env : Env) (req : InboundRequest)
    (base : String) (s : String → Option String)
    (hu : req.is_upgrade = false)
    (hres : env.resolver req.path = none)
    (hdev : env.is_dev = true)
    (hurl : env.dev_url = some base)
    (hjoin : env.joinUrl base req.path = none) :
    handle_request_handler env req = HandlerOutcome.panic ∧
    tunnelProxyUrl env.joinUrl s env.dev_url req.path = none := by
  constructor
  · simp [handle_request_handler, hu, hres, hdev, hurl, hjoin]
  · simp [tunnelProxyUrl, hurl, hjoin]

/-- Witness for the amended C6, at the concrete failing environment. -/
theorem join_failure_panics_witness :
    joinFailReq.is_upgrade = false ∧
    joinFailEnv.resolver joinFailReq.path = none ∧
    joinFailEnv.is_dev = true ∧
    joinFailEnv.dev_url = some "http://localhost:1420" ∧
    joinFailEnv.joinUrl "http://localhost:1420" joinFailReq.path = none ∧
    (handle_request_handler joinFailEnv joinFailReq = HandlerOutcome.panic ∧
     tunnelProxyUrl joinFailEnv.joinUrl (fun u => some u)
        joinFailEnv.dev_url joinFailReq.path = none) :=
  ⟨rfl, rfl, rfl, rfl, by decide,
    join_failure_panics joinFailEnv joinFailReq "http://localhost:1420"
      (fun u => some u) rfl rfl rfl rfl (by decide)⟩

/-- C1: a request whose path resolves to an asset is answered with status
200, a `Content-Type` header equal to the asset's MIME type, the asset's
bytes as body, and a `Content-Security-Policy` header exactly when the
asset supplies one (with the supplied value) — assuming the supplied MIME
and CSP strings pass header wire-format validation (the invalid case is
C9's silent drop). -/
theorem served_asset_response (env : Env) (req : InboundRequest)
    (asset : Asset)
    (hu : req.is_upgrade = false)
    (hres : env.resolver req.path = some asset)
    (hmime : isValidHeaderValue asset.mime_type = true)
    (hcsp : asset.csp_header.all isValidHeaderValue = true) :
    handle_request_handler env req = HandlerOutcome.ok (assetResponse asset) ∧
    (assetResponse asset).status = 200 ∧
    hmGet "Content-Type" (assetResponse asset).headers =
      some asset.mime_type ∧
    (assetResponse asset).body = asset.bytes ∧
    hmGet "Content-Security-Policy" (assetResponse asset).headers =
      asset.csp_header := by
  have hCT : isValidHeaderName "Content-Type" = true := by decide
  have hCSP : isValidHeaderName "Content-Security-Policy" = true := by decide
  have hne : ("Content-Type" : String) ≠ "Content-Security-Policy" := by
    decide
  refine ⟨?_, rfl, ?_, rfl, ?_⟩
  · simp [handle_request_handler, hu, hres]
  all_goals rcases hc : asset.csp_header with _ | c
  all_goals simp [hc] at hcsp ⊢
  all_goals
    simp [assetResponse, defaultAssetHeaders, hc, wireFilter, hmInsert,
      hmGet, List.filter, List.find?, hmime, hCT, hCSP, hne, hcsp]

/-- C9: on a served-asset response, a header pair whose name or value fails
wire-format validation is silently omitted from the outgoing headers, while
the response is still produced — status 200, the asset's bytes, and every
valid default header retained; an invalid header never aborts the
response. -/
theorem invalid_header_dropped (env : Env) (req : InboundRequest)
    (asset : Asset) (n v n2 v2 : String)
    (hu : req.is_upgrade = false)
    (hres : env.resolver req.path = some asset)
    (hinv : (isValidHeaderName n && isValidHeaderValue v) = false)
    (hmem : (n2, v2) ∈ defaultAssetHeaders asset)
    (hval : (isValidHeaderName n2 && isValidHeaderValue v2) = true) :
    handle_request_handler env req = HandlerOutcome.ok (assetResponse asset) ∧
    (assetResponse asset).status = 200 ∧
    (assetResponse asset).body = asset.bytes ∧
    (n, v) ∉ (assetResponse asset).headers ∧
    (n2, v2) ∈ (assetResponse asset).headers := by
  rw [Bool.and_eq_true] at hval
  refine ⟨?_, rfl, rfl, ?_, ?_⟩
  · simp [handle_request_handler, hu, hres]
  · intro hmem2
    simp only [assetResponse, wireFilter, List.mem_filter,
      Bool.and_eq_true] at hmem2
    simp [hmem2.2.1, hmem2.2.2] at hinv
  · simp only [assetResponse, wireFilter, List.mem_filter, Bool.and_eq_true]
    exact ⟨hmem, hval.1, hval.2⟩

/-- An asset whose CSP value contains a control character and therefore
fails header wire-format validation. -/
def badCspAsset : Asset :=
  { bytes := [104, 105], mime_type := "text/plain"
    csp_header := some "bad\nvalue" }

/-- An environment resolving `/hi.txt` to `badCspAsset`. -/
def badCspEnv : Env :=
  { resolver := fun p => if p = "/hi.txt" then some badCspAsset else none
    is_dev := false
    dev_url := none
    joinUrl := fun b p => some (b ++ p)
    upstream := fun _ => Except.error () }

/-- Witness for C9: the invalid CSP default is dropped while the valid
`Content-Type` default and the rest of the response survive. -/
theorem invalid_header_dropped_witness :
    ({ method := "GET", path := "/hi.txt", headers := [],
       is_upgrade := false, upgrade_ok := false } : InboundRequest).is_upgrade
        = false ∧
    badCspEnv.resolver "/hi.txt" = some badCspAsset ∧
    (isValidHeaderName "Content-Security-Policy" &&
      isValidHeaderValue "bad\nvalue") = false ∧
    ("Content-Type", "text/plain") ∈ defaultAssetHeaders badCspAsset ∧
    (isValidHeaderName "Content-Type" &&
      isValidHeaderValue "text/plain") = true ∧
    (handle_request_handler badCspEnv
        { method := "GET", path := "/hi.txt", headers := [],
          is_upgrade := false, upgrade_ok := false } =
      HandlerOutcome.ok (assetResponse badCspAsset) ∧
     (assetResponse badCspAsset).status = 200 ∧
     (assetResponse badCspAsset).body = badCspAsset.bytes ∧
     ("Content-Security-Policy", "bad\nvalue") ∉
       (assetResponse badCspAsset).headers ∧
     ("Content-Type", "text/plain") ∈ (assetResponse badCspAsset).headers) :=
  ⟨rfl, rfl, by decide, by decide, by decide,
    invalid_header_dropped badCspEnv
      { method := "GET", path := "/hi.txt", headers := [],
        is_upgrade := false, upgrade_ok := false }
      badCspAsset "Content-Security-Policy" "bad\nvalue"
      "Content-Type" "text/plain"
      rfl rfl (by decide) (by decide) (by decide)⟩

/-- Witness for C1: the sample environment serving `/index.html`. -/
theorem served_asset_response_witness :
    getIndexReq.is_upgrade = false ∧
    assetEnv.resolver getIndexReq.path = some sampleAsset ∧
    isValidHeaderValue sampleAsset.mime_type = true ∧
    sampleAsset.csp_header.all isValidHeaderValue = true ∧
    (handle_request_handler assetEnv getIndexReq =
      HandlerOutcome.ok (assetResponse sampleAsset) ∧
     (assetResponse sampleAsset).status = 200 ∧
     hmGet "Content-Type" (assetResponse sampleAsset).headers =
       some sampleAsset.mime_type ∧
     (assetResponse sampleAsset).body = sampleAsset.bytes ∧
     hmGet "Content-Security-Policy" (assetResponse sampleAsset).headers =
       sampleAsset.csp_header) :=
  ⟨rfl, rfl, by decide, by decide,
    served_asset_response assetEnv getIndexReq sampleAsset rfl rfl
      (by decide) (by decide)⟩

/-- Finding the key `k` after a prefix that never carries it. -/
theorem find_skip (k v : String) (l : Headers)
    (hl : ∀ p ∈ l, p.1 ≠ k) :
    List.find? (fun p => p.1 = k) (l ++ [(k, v)]) = some (k, v) := by
  induction l with
  | nil => simp [List.find?]
  | cons q rest ih =>
    have hq : q.1 ≠ k := hl q (List.mem_cons_self q rest)
    have hrest : ∀ p ∈ rest, p.1 ≠ k := fun p hp =>
      hl p (List.mem_cons_of_mem q hp)
    simp [List.find?, hq, ih hrest]

/-- A valid header written with `hmInsert` is the value looked up under its
key after the wire-format filter, whatever was in the map before. -/
theorem hmGet_wireFilter_hmInsert (k v : String) (m : Headers)
    (hk : isValidHeaderName k = true) (hv : isValidHeaderValue v = true) :
    hmGet k (wireFilter (hmInsert k v m)) = some v := by
  have h1 : wireFilter (hmInsert k v m) =
      (m.filter (fun p => p.1 ≠ k)).filter
        (fun p => isValidHeaderName p.1 && isValidHeaderValue p.2) ++
        [(k, v)] := by
    simp [wireFilter, hmInsert, List.filter_append, hk, hv]
  rw [hmGet, h1, find_skip]
  · rfl
  · intro p hp
    rw [List.mem_filter] at hp
    have hp2 := hp.1
    rw [List.mem_filter] at hp2
    simpa using hp2.2

/-- C7: with a registered mutation hook, the served-asset response is
assembled by applying the hook exactly once, to the header set that already
carries the default `Content-Type`/CSP headers, before the wire-format
filter and transmission; and a header the hook writes ends up in the final
headers under its key, overriding any default stored under the same key. -/
theorem hook_once_after_defaults (h : Hook) (req : InboundRequest)
    (asset : Asset) (k v : String)
    (hk : isValidHeaderName k = true) (hv : isValidHeaderValue v = true) :
    assembleAssetWithHook (some h) req asset =
      { status := 200
        headers := wireFilter (h req (defaultAssetHeaders asset))
        body := asset.bytes } ∧
    hmGet k (assembleAssetWithHook (some (fun _ m => hmInsert k v m)) req
        asset).headers = some v := by
  refine ⟨rfl, ?_⟩
  exact hmGet_wireFilter_hmInsert k v (defaultAssetHeaders asset) hk hv

/-- Witness for C7: a hook overwriting the default `Content-Type` of the
sample asset; the final headers carry the hook's value. -/
theorem hook_once_after_defaults_witness :
    isValidHeaderName "Content-Type" = true ∧
    isValidHeaderValue "application/json" = true ∧
    (assembleAssetWithHook (some (fun _ m => m)) getIndexReq sampleAsset =
      { status := 200
        headers := wireFilter (defaultAssetHeaders sampleAsset)
        body := sampleAsset.bytes } ∧
     hmGet "Content-Type" (assembleAssetWithHook
        (some (fun _ m => hmInsert "Content-Type" "application/json" m))
        getIndexReq sampleAsset).headers = some "application/json") :=
  ⟨by decide, by decide,
    hook_once_after_defaults (fun _ m => m) getIndexReq sampleAsset
      "Content-Type" "application/json" (by decide) (by decide)⟩

end Localhost
